import Mathlib

/-!
Shallow embedding of the conversation/tool-use engine of `src/src/main.rs`
(a terminal chat client with OpenAI-style and Gemini-style backends, a shell
tool and a web-search tool, and a SQLite-backed session store).

Messages are `{role, content}` pairs of strings, exactly as in the Rust
`Message` struct.  Character-level operations (`trim`, `trim_matches`,
`trim_end_matches`, `to_uppercase`, `starts_with`, `find`, `splitn`) are
modelled over `List Char`; ASCII case folding models Rust's `to_uppercase`
(the directive prefixes are pure ASCII).  Network and shell effects are
modelled by explicit outcome values passed into the pure turn function.
-/

namespace AgentBench

/-- A conversation message, mirroring `struct Message { role, content }`. -/
structure Message where
  role : String
  content : String
deriving DecidableEq, Repr

/-- The three providers of `enum ApiProvider`. -/
inductive ApiProvider where
  | openAI
  | sambanova
  | gemini
deriving DecidableEq, Repr

/-! ## Character-level helpers (Rust string methods on `List Char`) -/

/-- The quote characters stripped by `trim_matches(|c| c == '\'' || c == '\"' || c == '`')`:
ASCII single quote (39), double quote (34) and backquote (96). -/
def isQuoteChar (c : Char) : Bool :=
  c.toNat = 39 || c.toNat = 34 || c.toNat = 96

/-- Drop matching characters from the right end of a list
(Rust `trim_end_matches` / the right half of `trim_matches`). -/
def dropEndWhile (p : Char → Bool) (l : List Char) : List Char :=
  (l.reverse.dropWhile p).reverse

/-- Rust `str::trim`: whitespace stripped from both ends. -/
def trimWs (l : List Char) : List Char :=
  dropEndWhile Char.isWhitespace (l.dropWhile Char.isWhitespace)

/-- Rust `trim_matches` over the quote set: quote characters stripped
greedily from both ends. -/
def trimQuotes (l : List Char) : List Char :=
  dropEndWhile isQuoteChar (l.dropWhile isQuoteChar)

/-- The preprocessing `assistant_reply.trim().trim_matches(quotes)` applied
to a reply before directive detection. -/
def trimmedChars (s : String) : List Char :=
  trimQuotes (trimWs s.toList)

/-- Boolean sequence-prefix test (Rust `str::starts_with`). -/
def startsWithSeq : List Char → List Char → Bool
  | [], _ => true
  | _ :: _, [] => false
  | p :: ps, c :: cs => p = c && startsWithSeq ps cs

/-- The characters of `"[RUN_COMMAND"`. -/
def runPat : List Char :=
  ['[', 'R', 'U', 'N', '_', 'C', 'O', 'M', 'M', 'A', 'N', 'D']

/-- The characters of `"[SEARCH:"`. -/
def searchPat : List Char :=
  ['[', 'S', 'E', 'A', 'R', 'C', 'H', ':']

/-- ASCII upper-casing of a reply, modelling `to_uppercase()` for the
prefix comparison. -/
def upperChars (l : List Char) : List Char :=
  l.map Char.toUpper

/-- `trimmed_reply.to_uppercase().starts_with("[RUN_COMMAND")`. -/
def isRunDirective (l : List Char) : Bool :=
  startsWithSeq runPat (upperChars l)

/-- `trimmed_reply.to_uppercase().starts_with("[SEARCH:")`. -/
def isSearchDirective (l : List Char) : Bool :=
  startsWithSeq searchPat (upperChars l)

/-- The suffix strictly after the first occurrence of `c`, if any
(Rust `find` + slice, or `splitn(2, c).nth(1)`). -/
def afterFirstChar (c : Char) : List Char → Option (List Char)
  | [] => none
  | x :: xs => if x = c then some xs else afterFirstChar c xs

/-- Rust `trim_end_matches(']')`: all trailing `]` characters removed. -/
def dropEndBrackets (l : List Char) : List Char :=
  dropEndWhile (fun c => c = ']') l

/-- The command substring of a shell directive: everything after the first
space, `trim_start`-ed, with trailing `]` stripped; empty when the trimmed
reply has no space. -/
def extractCommand (l : List Char) : List Char :=
  match afterFirstChar ' ' l with
  | none => []
  | some rest => dropEndBrackets (rest.dropWhile Char.isWhitespace)

/-- The query of a search directive: `splitn(2, ':').nth(1).unwrap_or("")`
with trailing `]` stripped (note: no left-trimming of the query). -/
def extractQuery (l : List Char) : List Char :=
  dropEndBrackets ((afterFirstChar ':' l).getD [])

/-! ## Gemini request transformation (`call_llm`, Gemini arm) -/

/-- The Gemini wire role of a history message: `assistant` maps to
`"model"`, everything else to `"user"`. -/
def geminiRole (r : String) : String :=
  if r = "assistant" then "model" else "user"

/-- The `contents` list built by the Gemini arm of `call_llm`: when the
first history message has role `system` it becomes a synthetic
user/"Understood." exchange; then every message after the first (the first
is always skipped) is mapped through `geminiRole`. -/
def geminiContents (history : List Message) : List (String × String) :=
  (match history with
   | [] => []
   | m :: _ =>
     if m.role = "system" then
       [("user", m.content), ("model", "Understood.")]
     else []) ++
  (history.drop 1).map (fun m => (geminiRole m.role, m.content))

/-- Strict user/model alternation check: `altUM true l` holds when `l` is
`"user", "model", "user", ...`; the flag records which role is expected
next. -/
def altUM : Bool → List String → Bool
  | _, [] => true
  | b, r :: rs => (r = cond b "user" "model") && altUM (!b) rs

/-- Source-level alternation of the post-system tail of a history:
non-assistant and assistant messages strictly alternate, starting with a
non-assistant one.  The flag records whether a non-assistant message is
expected next. -/
def srcAlt : Bool → List Message → Bool
  | _, [] => true
  | b, m :: ms =>
    cond b (decide (m.role ≠ "assistant")) (decide (m.role = "assistant")) && srcAlt (!b) ms

/-! ## Reply extraction (`call_llm`, response handling) -/

/-- A JSON value, modelling `serde_json::Value` (numbers are irrelevant to
the claims and carried as integers). -/
inductive Json where
  | null
  | bool (b : Bool)
  | num (n : Int)
  | str (s : String)
  | arr (xs : List Json)
  | obj (fields : List (String × Json))

/-- `value[key]` on `serde_json::Value`: the field of an object, `Null`
when missing or when the value is not an object. -/
def Json.getKey : Json → String → Json
  | .obj fs, k =>
    match fs.find? (fun f => f.1 = k) with
    | some f => f.2
    | none => .null
  | _, _ => .null

/-- `value[i]` on `serde_json::Value`: the `i`-th element of an array,
`Null` when out of bounds or when the value is not an array. -/
def Json.getIdx : Json → Nat → Json
  | .arr xs, i => (xs.get? i).getD .null
  | _, _ => .null

/-- `Value::as_str`: `some` exactly on JSON strings. -/
def Json.asStr : Json → Option String
  | .str s => some s
  | _ => none

/-- The reply field looked up by `call_llm`:
`choices[0].message.content` for OpenAI-style providers,
`candidates[0].content.parts[0].text` for Gemini. -/
def extractField (p : ApiProvider) (j : Json) : Option String :=
  match p with
  | .openAI | .sambanova =>
    ((((j.getKey "choices").getIdx 0).getKey "message").getKey "content").asStr
  | .gemini =>
    (((((j.getKey "candidates").getIdx 0).getKey "content").getKey "parts").getIdx 0
      |>.getKey "text").asStr

/-- Reply extraction with the `unwrap_or("[No response]")` fallback. -/
def parseReply (p : ApiProvider) (j : Json) : String :=
  (extractField p j).getD "[No response]"

/-- An HTTP response to a model call: success flag, status text, the error
body read (which may itself fail), and the parsed JSON body (`none` models
a body that fails to parse as JSON). -/
structure ModelHttpResp where
  statusOk : Bool
  status : String
  errBody : Except String String
  jsonBody : Option Json

/-- `res.text().await.unwrap_or_else(|_| "Could not read error body")`. -/
def errBodyText : Except String String → String
  | .ok b => b
  | .error _ => "Could not read error body"

/-- The response handling of `call_llm`: a non-success status becomes an
`API Error` failure; otherwise the body is parsed
(`unwrap_or_else(|_| json!({}))` on parse failure) and the reply extracted. -/
def handleModelResponse (p : ApiProvider) (r : ModelHttpResp) : Except String String :=
  if r.statusOk then
    .ok (parseReply p (r.jsonBody.getD (Json.obj [])))
  else
    .error ("API Error: " ++ errBodyText r.errBody ++ " (" ++ r.status ++ ")")

/-! ## Web search tool (`web_search` and its call site) -/

/-- The network outcome of the search GET: a transport-level failure, or a
response with a success flag, status text, and a body read that may fail. -/
inductive NetOutcome where
  | transportErr (e : String)
  | got (statusOk : Bool) (statusText : String) (bodyRead : Except String String)

/-- `response.text().await.unwrap_or_else(|_| "Could not read body")`. -/
def readBodyOr : Except String String → String
  | .ok b => b
  | .error _ => "Could not read body"

/-- The `web_search` function: a transport failure propagates as `Err`; a
non-success status degrades to `Ok` of a descriptive error string; a
success status returns the body read result as is. -/
def web_search (_query : String) (net : NetOutcome) : Except String String :=
  match net with
  | .transportErr e => .error e
  | .got ok st body =>
    if ok then body
    else .ok ("Search API returned a non-success status: " ++ st ++ ". Body: "
      ++ readBodyOr body)

/-- The call site `web_search(q).await.unwrap_or_else(|e| format!("Failed to
perform web search: {}", e))`: always a plain string. -/
def performWebSearch (q : String) (net : NetOutcome) : String :=
  match web_search q net with
  | .ok s => s
  | .error e => "Failed to perform web search: " ++ e

/-! ## Shell tool -/

/-- The captured output of `std::process::Command::new("sh")`. -/
structure ShellOutput where
  success : Bool
  stdout : String
  stderr : String
deriving DecidableEq, Repr

/-- `if output.status.success() { stdout } else { stderr }`. -/
def shellResultText (o : ShellOutput) : String :=
  if o.success then o.stdout else o.stderr

/-! ## System prompt construction -/

/-- The ASCII single-quote character as a one-character string. -/
def squote : String := String.mk [Char.ofNat 39]

/-- The ASCII backquote character as a one-character string. -/
def bquote : String := String.mk [Char.ofNat 96]

/-- The session system prompt: tool-aware when web search is enabled for
the session, plain otherwise. -/
def systemPrompt (webSearchEnabled : Bool) (modelName : String) (currentYear : Int) : String :=
  if webSearchEnabled then
    "You are a helpful AI assistant powered by the " ++ modelName ++ " model.\n"
      ++ "You have the ability to run any Linux shell command.\n"
      ++ "Your response MUST be ONLY the tool command. Do not add any explanation.\n"
      ++ "Do NOT use interactive commands (like " ++ squote ++ "nano" ++ squote
      ++ ", " ++ squote ++ "vim" ++ squote ++ "). Use non-interactive commands like "
      ++ bquote ++ "cat" ++ bquote ++ " to read files.\n\nTool format:\n"
      ++ "- Run a shell command: " ++ bquote ++ "[RUN_COMMAND <command to run>]" ++ bquote
      ++ "\n- Search the web: " ++ bquote ++ "[SEARCH: your query]" ++ bquote
      ++ ". Current year: " ++ toString currentYear
  else
    "You are an AI assistant powered by the " ++ modelName ++ " model."

/-! ## The turn state machine (`start_chat_session` loop body) -/

/-- The observable outcome of processing one non-empty, non-exit user
input: the updated history, the `(role, content)` pairs persisted via
`save_message` during the turn (in order), the number of model calls, the
shell commands and search queries executed, and whether the
empty-command warning was printed. -/
structure TurnOutcome where
  history : List Message
  saved : List (String × String)
  modelCalls : Nat
  shellRuns : List String
  searchRuns : List String
  warnedEmptyCommand : Bool
deriving DecidableEq, Repr

/-- The tail of a tool turn: the second `call_llm` invocation.  On failure
the turn is abandoned (`continue`) with the tool messages left in history
and nothing further persisted; on success the final reply is appended and
persisted. -/
def finishToolTurn (history2 : List Message) (saved1 : List (String × String))
    (call2 : Except String String) (shellRuns searchRuns : List String) : TurnOutcome :=
  match call2 with
  | .error _ => ⟨history2, saved1, 2, shellRuns, searchRuns, false⟩
  | .ok finalReply =>
    ⟨history2 ++ [⟨"assistant", finalReply⟩],
     saved1 ++ [("assistant", finalReply)], 2, shellRuns, searchRuns, false⟩

/-- One turn of the `start_chat_session` loop for a non-empty, non-exit
(already trimmed) user input.  `call1` is the outcome of the first
`call_llm`; `call2` the outcome of the second (consulted only after a tool
fired); `shell` maps a command to its captured output; `net` is the
network outcome of a web search, if one is issued. -/
def processTurn (webSearchEnabled : Bool) (history : List Message) (userInput : String)
    (call1 call2 : Except String String) (shell : String → ShellOutput)
    (net : NetOutcome) : TurnOutcome :=
  let history1 := history ++ [⟨"user", userInput⟩]
  let saved1 := [("user", userInput)]
  match call1 with
  | .error _ => ⟨history1, saved1, 1, [], [], false⟩
  | .ok reply =>
    let t := trimmedChars reply
    if isRunDirective t then
      let cmd := extractCommand t
      if cmd = [] then
        ⟨history1, saved1, 1, [], [], true⟩
      else
        let cmdStr := String.mk cmd
        let result := shellResultText (shell cmdStr)
        let history2 := history1 ++
          [⟨"assistant", reply⟩, ⟨"system", "Command output:\n" ++ result⟩]
        finishToolTurn history2 saved1 call2 [cmdStr] []
    else if webSearchEnabled && isSearchDirective t then
      let q := String.mk (extractQuery t)
      let res := performWebSearch q net
      let history2 := history1 ++
        [⟨"assistant", reply⟩,
         ⟨"system", "Web search results for " ++ squote ++ q ++ squote ++ ":\n" ++ res⟩]
      finishToolTurn history2 saved1 call2 [] [q]
    else
      ⟨history1 ++ [⟨"assistant", reply⟩], saved1 ++ [("assistant", reply)],
       1, [], [], false⟩

/-! ## Helper lemmas -/

/-- The lower-case characters of `"[run_command"`. -/
def lowerRunPat : List Char :=
  ['[', 'r', 'u', 'n', '_', 'c', 'o', 'm', 'm', 'a', 'n', 'd']

/-- The lower-case characters of `"[search:"`. -/
def lowerSearchPat : List Char :=
  ['[', 's', 'e', 'a', 'r', 'c', 'h', ':']

/-- A list starts with itself followed by anything. -/
theorem startsWithSeq_self_append (p t : List Char) :
    startsWithSeq p (p ++ t) = true := by
  induction p with
  | nil => rfl
  | cons c cs ih => simp [startsWithSeq, ih]

/-- A reply that starts with `[SEARCH:` cannot also start with
`[RUN_COMMAND` (they differ at the second character). -/
theorem search_excludes_run (l : List Char)
    (h : startsWithSeq searchPat l = true) :
    startsWithSeq runPat l = false := by
  match l with
  | [] => simp [searchPat, startsWithSeq] at h
  | [a] => simp [searchPat, startsWithSeq] at h
  | a :: b :: t =>
    simp only [searchPat, runPat, startsWithSeq, Bool.and_eq_true,
      decide_eq_true_eq] at h ⊢
    obtain ⟨ha, hb, -⟩ := h
    subst ha; subst hb
    simp

/-- Source-level alternation of a message list carries over to wire-level
user/model alternation of its `geminiRole` image. -/
theorem srcAlt_altUM (ms : List Message) : ∀ b, srcAlt b ms = true →
    altUM b (ms.map fun m => geminiRole m.role) = true := by
  induction ms with
  | nil => intro b _; rfl
  | cons m ms ih =>
    intro b h
    simp only [srcAlt, Bool.and_eq_true] at h
    obtain ⟨h1, h2⟩ := h
    simp only [List.map, altUM, Bool.and_eq_true]
    refine ⟨?_, ih (!b) h2⟩
    cases b with
    | true =>
      simp only [cond_true, decide_eq_true_eq] at h1
      simp [geminiRole, h1]
    | false =>
      simp only [cond_false, decide_eq_true_eq] at h1
      simp [geminiRole, h1]

/-! ## Claim theorems -/

/-- Claim C8: when the first model call of a turn fails (transport or
non-success status), the turn is discarded without rollback — the user
message remains appended to history and persisted, no assistant message is
appended or persisted, no tool runs, and the engine returns to awaiting
input. -/
theorem first_call_failure_keeps_user_message (ws : Bool) (hist : List Message)
    (u e : String) (c2 : Except String String) (shell : String → ShellOutput)
    (net : NetOutcome) :
    processTurn ws hist u (.error e) c2 shell net =
      ⟨hist ++ [⟨"user", u⟩], [("user", u)], 1, [], [], false⟩ := rfl

/-- Claim C9: a search-tool invocation always yields some textual result
for the model: a transport-level failure degrades at the call site to a
`Failed to perform web search` string, and a non-success HTTP status
degrades inside `web_search` to a descriptive error string folded into the
result text; neither propagates as a hard error. -/
theorem search_failures_degrade_to_text (q e st : String)
    (body : Except String String) :
    performWebSearch q (.transportErr e) = "Failed to perform web search: " ++ e ∧
    performWebSearch q (.got false st body) =
      "Search API returned a non-success status: " ++ st ++ ". Body: "
        ++ readBodyOr body := ⟨rfl, rfl⟩

/-- Claim C6: reply extraction never fails: when the expected field
(`choices[0].message.content` or `candidates[0].content.parts[0].text`) is
absent or not a string, `parseReply` returns the sentinel `[No response]`;
and a success response whose body fails to parse as JSON degrades to an
empty object whose extraction yields the same sentinel instead of aborting
the turn. -/
theorem parseReply_never_fails (p : ApiProvider) (j : Json) (st : String)
    (eb : Except String String) (h : extractField p j = none) :
    parseReply p j = "[No response]" ∧
    handleModelResponse p ⟨true, st, eb, none⟩ = .ok "[No response]" := by
  constructor
  · simp [parseReply, h]
  · cases p <;> rfl

/-- Witness for C6 at a concrete unparseable/malformed response. -/
theorem parseReply_never_fails_witness :
    parseReply ApiProvider.openAI (Json.obj [("unexpected", Json.num 1)])
        = "[No response]" ∧
    handleModelResponse ApiProvider.openAI ⟨true, "200 OK", .ok "", none⟩
        = .ok "[No response]" :=
  parseReply_never_fails ApiProvider.openAI (Json.obj [("unexpected", Json.num 1)])
    "200 OK" (.ok "") rfl

/-- Claim C5: a reply whose trimmed form begins with `[RUN_COMMAND`
triggers shell execution regardless of the per-session web-search choice:
the turn outcome is identical whatever the flag, and the extracted command
is executed. -/
theorem run_directive_ignores_websearch_flag (ws : Bool) (hist : List Message)
    (u reply : String) (c2 : Except String String) (shell : String → ShellOutput)
    (net : NetOutcome)
    (hrun : isRunDirective (trimmedChars reply) = true)
    (hcmd : extractCommand (trimmedChars reply) ≠ []) :
    processTurn ws hist u (.ok reply) c2 shell net =
      processTurn true hist u (.ok reply) c2 shell net ∧
    (processTurn ws hist u (.ok reply) c2 shell net).shellRuns =
      [String.mk (extractCommand (trimmedChars reply))] := by
  cases c2 with
  | error e => simp [processTurn, hrun, hcmd, finishToolTurn]
  | ok f => simp [processTurn, hrun, hcmd, finishToolTurn]

/-- Witness for C5 at a concrete shell directive with the flag disabled. -/
theorem run_directive_ignores_websearch_flag_witness :
    processTurn false [] "u" (.ok "[RUN_COMMAND ls]") (.ok "done")
        (fun _ => ⟨true, "o", "e"⟩) (.transportErr "t") =
      processTurn true [] "u" (.ok "[RUN_COMMAND ls]") (.ok "done")
        (fun _ => ⟨true, "o", "e"⟩) (.transportErr "t") ∧
    (processTurn false [] "u" (.ok "[RUN_COMMAND ls]") (.ok "done")
        (fun _ => ⟨true, "o", "e"⟩) (.transportErr "t")).shellRuns =
      [String.mk (extractCommand (trimmedChars "[RUN_COMMAND ls]"))] :=
  run_directive_ignores_websearch_flag false [] "u" "[RUN_COMMAND ls]" (.ok "done")
    (fun _ => ⟨true, "o", "e"⟩) (.transportErr "t") (by decide) (by decide)

/-- Claim C10: in a shell round-trip the captured text fed back to the
model is stdout on exit success and stderr on non-zero exit; a non-zero
exit is not an error — the result is spliced into history as a system
message and a second model call follows, whose reply is appended and
persisted. -/
theorem shell_result_stdout_or_stderr (ws : Bool) (hist : List Message)
    (u reply fin o e : String) (shell : String → ShellOutput) (net : NetOutcome)
    (hrun : isRunDirective (trimmedChars reply) = true)
    (hcmd : extractCommand (trimmedChars reply) ≠ []) :
    shellResultText ⟨true, o, e⟩ = o ∧
    shellResultText ⟨false, o, e⟩ = e ∧
    processTurn ws hist u (.ok reply) (.ok fin) shell net =
      ⟨hist ++ [⟨"user", u⟩, ⟨"assistant", reply⟩,
        ⟨"system", "Command output:\n"
          ++ shellResultText (shell (String.mk (extractCommand (trimmedChars reply))))⟩,
        ⟨"assistant", fin⟩],
       [("user", u), ("assistant", fin)], 2,
       [String.mk (extractCommand (trimmedChars reply))], [], false⟩ := by
  refine ⟨rfl, rfl, ?_⟩
  simp [processTurn, hrun, hcmd, finishToolTurn]

/-- Witness for C10 on a command that exits non-zero: stderr is the
captured result. -/
theorem shell_result_stdout_or_stderr_witness :
    shellResultText ⟨true, "out", "err"⟩ = "out" ∧
    shellResultText ⟨false, "out", "err"⟩ = "err" ∧
    processTurn false [] "u" (.ok "[RUN_COMMAND cat nope]") (.ok "done")
        (fun _ => ⟨false, "out", "err"⟩) (.transportErr "t") =
      ⟨[⟨"user", "u"⟩, ⟨"assistant", "[RUN_COMMAND cat nope]"⟩,
        ⟨"system", "Command output:\n"
          ++ shellResultText ((fun _ => (⟨false, "out", "err"⟩ : ShellOutput))
            (String.mk (extractCommand (trimmedChars "[RUN_COMMAND cat nope]"))))⟩,
        ⟨"assistant", "done"⟩],
       [("user", "u"), ("assistant", "done")], 2,
       [String.mk (extractCommand (trimmedChars "[RUN_COMMAND cat nope]"))], [], false⟩ :=
  shell_result_stdout_or_stderr false [] "u" "[RUN_COMMAND cat nope]" "done"
    "out" "err" (fun _ => ⟨false, "out", "err"⟩) (.transportErr "t")
    (by decide) (by decide)

/-- Claim C7: with web search disabled for the session, a reply whose
trimmed form begins with `[SEARCH:` is a plain final reply: no search
runs, no tool messages are appended, and the reply itself is appended to
history and persisted as the assistant message. -/
theorem search_disabled_is_plain_reply (hist : List Message) (u reply : String)
    (c2 : Except String String) (shell : String → ShellOutput) (net : NetOutcome)
    (hs : isSearchDirective (trimmedChars reply) = true) :
    processTurn false hist u (.ok reply) c2 shell net =
      ⟨hist ++ [⟨"user", u⟩, ⟨"assistant", reply⟩],
       [("user", u), ("assistant", reply)], 1, [], [], false⟩ := by
  have hr : isRunDirective (trimmedChars reply) = false :=
    search_excludes_run _ hs
  simp [processTurn, hr]

/-- Witness for C7 at a concrete search directive with the flag disabled. -/
theorem search_disabled_is_plain_reply_witness :
    processTurn false [] "u" (.ok "[SEARCH: capital of France]") (.ok "x")
        (fun _ => ⟨true, "o", "e"⟩) (.transportErr "t") =
      ⟨[⟨"user", "u"⟩, ⟨"assistant", "[SEARCH: capital of France]"⟩],
       [("user", "u"), ("assistant", "[SEARCH: capital of France]")],
       1, [], [], false⟩ :=
  search_disabled_is_plain_reply [] "u" "[SEARCH: capital of France]" (.ok "x")
    (fun _ => ⟨true, "o", "e"⟩) (.transportErr "t") (by decide)

/-- Claim C1 (counterexample): in a shell-tool round-trip the assistant
directive message is appended to history but never passed to
`save_message`; here the directive `[RUN_COMMAND echo hi]` is in the final
history while no persisted pair carries it. -/
theorem directive_not_persisted_counterexample :
    (Message.mk "assistant" "[RUN_COMMAND echo hi]") ∈
      (processTurn false [] "run" (Except.ok "[RUN_COMMAND echo hi]")
        (Except.ok "done") (fun _ => ⟨true, "hi", ""⟩)
        (NetOutcome.transportErr "t")).history ∧
    ("assistant", "[RUN_COMMAND echo hi]") ∉
      (processTurn false [] "run" (Except.ok "[RUN_COMMAND echo hi]")
        (Except.ok "done") (fun _ => ⟨true, "hi", ""⟩)
        (NetOutcome.transportErr "t")).saved := by
  decide

/-- Claim C1 (amended): in a successful tool round-trip exactly the user
message and the final assistant reply are persisted, in that order, while
the assistant directive message is appended to history but not persisted. -/
theorem tool_turn_persists_user_and_final_only (ws : Bool) (hist : List Message)
    (u reply fin : String) (shell : String → ShellOutput) (net : NetOutcome)
    (hrun : isRunDirective (trimmedChars reply) = true)
    (hcmd : extractCommand (trimmedChars reply) ≠ []) :
    (processTurn ws hist u (.ok reply) (.ok fin) shell net).saved =
      [("user", u), ("assistant", fin)] ∧
    Message.mk "assistant" reply ∈
      (processTurn ws hist u (.ok reply) (.ok fin) shell net).history := by
  simp [processTurn, hrun, hcmd, finishToolTurn]

/-- Witness for amended C1 at a concrete shell round-trip. -/
theorem tool_turn_persists_user_and_final_only_witness :
    (processTurn false [] "go" (.ok "[RUN_COMMAND pwd]") (.ok "fine")
        (fun _ => ⟨true, "/", ""⟩) (.transportErr "t")).saved =
      [("user", "go"), ("assistant", "fine")] ∧
    Message.mk "assistant" "[RUN_COMMAND pwd]" ∈
      (processTurn false [] "go" (.ok "[RUN_COMMAND pwd]") (.ok "fine")
        (fun _ => ⟨true, "/", ""⟩) (.transportErr "t")).history :=
  tool_turn_persists_user_and_final_only false [] "go" "[RUN_COMMAND pwd]" "fine"
    (fun _ => ⟨true, "/", ""⟩) (.transportErr "t") (by decide) (by decide)

/-- Claim C2 (counterexample): a history with a leading system message,
a tool-bookkeeping system message and a trailing user message (the shape
left behind when a second model call fails and a new input arrives) maps
to `user, model, user, model, user, user` — not strictly alternating. -/
theorem gemini_alternation_counterexample :
    ([⟨"system", "s"⟩, ⟨"user", "u1"⟩, ⟨"assistant", "d"⟩, ⟨"system", "r"⟩,
        ⟨"user", "u2"⟩] : List Message).head?.map Message.role = some "system" ∧
    (geminiContents [⟨"system", "s"⟩, ⟨"user", "u1"⟩, ⟨"assistant", "d"⟩,
        ⟨"system", "r"⟩, ⟨"user", "u2"⟩]).map Prod.fst =
      ["user", "model", "user", "model", "user", "user"] ∧
    altUM true ((geminiContents [⟨"system", "s"⟩, ⟨"user", "u1"⟩,
        ⟨"assistant", "d"⟩, ⟨"system", "r"⟩, ⟨"user", "u2"⟩]).map Prod.fst) =
      false := by
  decide

/-- Claim C2 (amended): for a history with a leading system message whose
remaining messages strictly alternate between non-assistant and assistant
roles starting with a non-assistant one (the shape of completed turns,
tool bookkeeping included), the Gemini transform starts with `"user"` and
strictly alternates user/model. -/
theorem gemini_alternation_amended (c : String) (rest : List Message)
    (h : srcAlt true rest = true) :
    ((geminiContents (⟨"system", c⟩ :: rest)).map Prod.fst).head? = some "user" ∧
    altUM true ((geminiContents (⟨"system", c⟩ :: rest)).map Prod.fst) = true := by
  constructor
  · rfl
  · have hrest := srcAlt_altUM rest true h
    simp only [geminiContents, List.drop_succ_cons, List.drop_zero]
    simp only [List.map_append, List.map_map]
    have hcomp : (Prod.fst ∘ fun m : Message => (geminiRole m.role, m.content)) =
        fun m : Message => geminiRole m.role := rfl
    simp [altUM, hcomp, hrest]

/-- Witness for amended C2 on a tool round-trip history. -/
theorem gemini_alternation_amended_witness :
    ((geminiContents (⟨"system", "sys"⟩ :: [⟨"user", "q"⟩,
        ⟨"assistant", "[RUN_COMMAND ls]"⟩, ⟨"system", "Command output:\nok"⟩,
        ⟨"assistant", "done"⟩])).map Prod.fst).head? = some "user" ∧
    altUM true ((geminiContents (⟨"system", "sys"⟩ :: [⟨"user", "q"⟩,
        ⟨"assistant", "[RUN_COMMAND ls]"⟩, ⟨"system", "Command output:\nok"⟩,
        ⟨"assistant", "done"⟩])).map Prod.fst) = true :=
  gemini_alternation_amended "sys" [⟨"user", "q"⟩,
    ⟨"assistant", "[RUN_COMMAND ls]"⟩, ⟨"system", "Command output:\nok"⟩,
    ⟨"assistant", "done"⟩] (by decide)

/-- Claim C3 (counterexample): on an empty `[RUN_COMMAND]` directive the
turn ends with the warning and without tool execution or a further model
call, but the user input has already been persisted — the persisted list
for the input is `[("user", "hi")]`, not empty. -/
theorem empty_directive_counterexample :
    processTurn false [] "hi" (Except.ok "[RUN_COMMAND]") (Except.ok "x")
        (fun _ => ⟨true, "", ""⟩) (NetOutcome.transportErr "t") =
      ⟨[⟨"user", "hi"⟩], [("user", "hi")], 1, [], [], true⟩ ∧
    ([("user", "hi")] : List (String × String)) ≠ [] := by
  decide

/-- Claim C3 (amended): an empty shell directive ends the turn with the
warning, no tool execution and no further model call, and exactly one
message persisted for that input: the user message itself. -/
theorem empty_directive_warns_and_persists_user (ws : Bool)
    (hist : List Message) (u reply : String) (c2 : Except String String)
    (shell : String → ShellOutput) (net : NetOutcome)
    (hrun : isRunDirective (trimmedChars reply) = true)
    (hcmd : extractCommand (trimmedChars reply) = []) :
    processTurn ws hist u (.ok reply) c2 shell net =
      ⟨hist ++ [⟨"user", u⟩], [("user", u)], 1, [], [], true⟩ := by
  simp [processTurn, hrun, hcmd]

/-- Witness for amended C3 at the bare `[RUN_COMMAND]` reply. -/
theorem empty_directive_warns_and_persists_user_witness :
    processTurn true [] "hello" (.ok "[RUN_COMMAND]") (.ok "x")
        (fun _ => ⟨true, "", ""⟩) (.transportErr "t") =
      ⟨[⟨"user", "hello"⟩], [("user", "hello")], 1, [], [], true⟩ :=
  empty_directive_warns_and_persists_user true [] "hello" "[RUN_COMMAND]"
    (.ok "x") (fun _ => ⟨true, "", ""⟩) (.transportErr "t")
    (by decide) (by decide)

/-- Claim C4 (counterexample): stripping is greedy, not one layer: the
reply `[RUN_COMMAND ls]]` yields the command `ls` (both trailing `]`
removed, not just one), and a reply wrapped in two layers of single
quotes is stripped of both layers before matching. -/
theorem strip_one_layer_counterexample :
    extractCommand (trimmedChars "[RUN_COMMAND ls]]") = "ls".toList ∧
    "ls".toList ≠ "ls]".toList ∧
    trimmedChars (String.mk ([Char.ofNat 39, Char.ofNat 39]
        ++ "[SEARCH: x]".toList ++ [Char.ofNat 39, Char.ofNat 39])) =
      "[SEARCH: x]".toList := by
  decide

/-- Claim C4 (amended): directive detection is case-insensitive on both
prefixes (replies equal up to upper-casing are classified identically, and
the lower-case spellings are detected); before matching, the reply is
stripped of surrounding whitespace and of ALL enclosing quote characters
from both ends, and ALL trailing `]` characters are stripped from the
extracted command or query — each repeated quote or bracket layer is also
removed. -/
theorem detection_case_insensitive_greedy_strip (t l l' : List Char) (q : Char)
    (hq : isQuoteChar q = true) (hcase : upperChars l = upperChars l') :
    isRunDirective l = isRunDirective l' ∧
    isSearchDirective l = isSearchDirective l' ∧
    isRunDirective (lowerRunPat ++ t) = true ∧
    isSearchDirective (lowerSearchPat ++ t) = true ∧
    trimQuotes (q :: l) = trimQuotes l ∧
    dropEndWhile isQuoteChar (l ++ [q]) = dropEndWhile isQuoteChar l ∧
    dropEndBrackets (l ++ [']']) = dropEndBrackets l := by
  refine ⟨?_, ?_, ?_, ?_, ?_, ?_, ?_⟩
  · simp [isRunDirective, hcase]
  · simp [isSearchDirective, hcase]
  · have : upperChars (lowerRunPat ++ t) = runPat ++ upperChars t := by
      simp [upperChars, lowerRunPat, runPat]
    simp [isRunDirective, this, startsWithSeq_self_append]
  · have : upperChars (lowerSearchPat ++ t) = searchPat ++ upperChars t := by
      simp [upperChars, lowerSearchPat, searchPat]
    simp [isSearchDirective, this, startsWithSeq_self_append]
  · simp [trimQuotes, List.dropWhile_cons, hq]
  · simp [dropEndWhile, List.dropWhile_cons, hq]
  · simp [dropEndBrackets, dropEndWhile, List.dropWhile_cons]

/-- Witness for amended C4: lower- and upper-case spellings of the shell
directive classified identically, with a single-quote layer stripped. -/
theorem detection_case_insensitive_greedy_strip_witness :
    isRunDirective ("[run_command x]".toList) =
      isRunDirective ("[RUN_COMMAND x]".toList) ∧
    isSearchDirective ("[run_command x]".toList) =
      isSearchDirective ("[RUN_COMMAND x]".toList) ∧
    isRunDirective (lowerRunPat ++ "[]".toList) = true ∧
    isSearchDirective (lowerSearchPat ++ "[]".toList) = true ∧
    trimQuotes (Char.ofNat 39 :: "[run_command x]".toList) =
      trimQuotes ("[run_command x]".toList) ∧
    dropEndWhile isQuoteChar ("[run_command x]".toList ++ [Char.ofNat 39]) =
      dropEndWhile isQuoteChar ("[run_command x]".toList) ∧
    dropEndBrackets ("[run_command x]".toList ++ [']']) =
      dropEndBrackets ("[run_command x]".toList) :=
  detection_case_insensitive_greedy_strip "[]".toList "[run_command x]".toList
    "[RUN_COMMAND x]".toList (Char.ofNat 39) (by decide) (by decide)

end AgentBench
